import Mathlib

/-!
Verification of the Room-Booking-App backend.

The embedding below follows the Python source:
* the booking store helpers in create_tables.py (get_bookings_by_room,
  get_booking_by_id, update_booking_status, check_room_availability);
* the Flask endpoints in app_enhanced.py (create_booking_endpoint,
  modify_booking, cancel_booking).

Modelling conventions:
* A DynamoDB Bookings table is a list of booking records; the query on the
  room_id-start_time index is a filter by room_id and (optionally) a lexical
  lower bound on start_time, mirroring Key conditions on string attributes.
* Python string comparison on ISO timestamps is Lean String order
  (lexicographic on code points, as in the source).
* datetime.fromisoformat is an uninterpreted parameter
  parseIso : String -> Option Int giving the epoch second of a timestamp
  (none models a ValueError); (b - a).total_seconds() / 60 becomes rational
  arithmetic on those epoch seconds.
* A fetch that raises botocore ClientError is an Except.error value; the
  try/except in get_bookings_by_room turns it into the empty list exactly
  as the Python does.
-/

namespace RoomBooking

/-- A record of the Bookings table, with the fields written by
create_booking_endpoint in app_enhanced.py. -/
structure Booking where
  booking_id : String
  room_id : String
  user_email : String
  user_id : String
  date : String
  start_time : String
  end_time : String
  status : String
  created_at : String
  deriving Repr, DecidableEq

/-- The Bookings table contents. -/
abbrev Store := List Booking

/-- Lexicographic comparison of two timestamp strings by code point, the
order Python applies to str operands of the < and > operators in
check_room_availability. This is the order underlying String.instLT. -/
def strLt (a b : String) : Prop :=
  a.data < b.data

instance (a b : String) : Decidable (strLt a b) := by
  unfold strLt
  infer_instance

theorem strLt_iff_string_lt (a b : String) : strLt a b ↔ a < b := by
  constructor
  · intro h
    exact String.lt_iff_toList_lt.mpr h
  · intro h
    exact String.lt_iff_toList_lt.mp h

/-- The DynamoDB gte key condition on a string attribute: not lexically
below the bound. -/
def strGe (a b : String) : Prop :=
  ¬ strLt a b

instance (a b : String) : Decidable (strGe a b) := by
  unfold strGe
  infer_instance

/-- The DynamoDB query of create_tables.py get_bookings_by_room: key condition
room_id = given and, when a start_date is passed, start_time >= start_date
(string comparison on the index attributes). -/
def queryBookings (store : Store) (room_id : String) (start_date : Option String) :
    List Booking :=
  match start_date with
  | some d => store.filter (fun b => decide (b.room_id = room_id ∧ strGe b.start_time d))
  | none => store.filter (fun b => decide (b.room_id = room_id))

/-- create_tables.py get_bookings_by_room: returns the queried items, but a
ClientError from the store is caught and turned into the empty list. -/
def get_bookings_by_room (fetch : Except String (List Booking)) : List Booking :=
  match fetch with
  | Except.ok items => items
  | Except.error _ => []

/-- The scan loop inside create_tables.py check_room_availability: skip
cancelled bookings and bookings of a different date, report the first
overlap, otherwise report availability. -/
def availabilityScan (date start_time end_time : String) :
    List Booking → Bool × String
  | [] => (true, "Room is available")
  | b :: rest =>
    if b.status = "cancelled" then
      availabilityScan date start_time end_time rest
    else if b.date ≠ date then
      availabilityScan date start_time end_time rest
    else if strLt start_time b.end_time ∧ strLt b.start_time end_time then
      (false, "Room is already booked for this time slot")
    else
      availabilityScan date start_time end_time rest

/-- create_tables.py check_room_availability: fetch the room bookings (a
store failure inside get_bookings_by_room yields the empty list) and scan
them for conflicts. -/
def check_room_availability (fetch : Except String (List Booking))
    (date start_time end_time : String) : Bool × String :=
  availabilityScan date start_time end_time (get_bookings_by_room fetch)

/-- A stored booking conflicts with a candidate interval on a date: it is not
cancelled, its date field matches, and the half-open intervals overlap under
string comparison. -/
def conflictsWith (date s e : String) (b : Booking) : Prop :=
  b.status ≠ "cancelled" ∧ b.date = date ∧ strLt s b.end_time ∧ strLt b.start_time e

instance (date s e : String) : DecidablePred (conflictsWith date s e) := by
  intro b
  unfold conflictsWith
  infer_instance

/-- The request body of POST /api/bookings after the required-field check of
create_booking_endpoint has passed (all five required fields present;
user_id defaults to "unknown" when absent). -/
structure BookingRequest where
  room_id : String
  user_email : String
  user_id : String
  date : String
  start_time : String
  end_time : String
  deriving Repr, DecidableEq

/-- The distinct responses of create_booking_endpoint in app_enhanced.py:
400 for a timestamp that fails datetime.fromisoformat, 400 for the two
duration bounds, 409 when check_room_availability says no, 201 with the
booking record on success. -/
inductive CreateResult where
  | malformedTimestamp
  | tooShort
  | tooLong
  | conflict (msg : String)
  | created (b : Booking)
  deriving Repr, DecidableEq

/-- The booking_record dict built by create_booking_endpoint on the success
path: fresh uuid, the request fields, status confirmed, created_at = now. -/
def bookingRecord (req : BookingRequest) (freshId nowIso : String) : Booking :=
  { booking_id := freshId
    room_id := req.room_id
    user_email := req.user_email
    user_id := req.user_id
    date := req.date
    start_time := req.start_time
    end_time := req.end_time
    status := "confirmed"
    created_at := nowIso }

/-- app_enhanced.py create_booking_endpoint from the timestamp validation on:
parse both timestamps, check duration_minutes = total_seconds / 60 against
30 and 240, run check_room_availability, then put the record with a fresh
uuid, status confirmed and created_at = now. Returns the response and the
store after the call. -/
def create_booking_endpoint (parseIso : String → Option Int) (store : Store)
    (req : BookingRequest) (freshId nowIso : String) : CreateResult × Store :=
  match parseIso req.start_time, parseIso req.end_time with
  | some sSec, some eSec =>
    let duration_minutes : ℚ := ((eSec - sSec : Int) : ℚ) / 60
    if duration_minutes < 30 then (CreateResult.tooShort, store)
    else if duration_minutes > 240 then (CreateResult.tooLong, store)
    else
      let avail := check_room_availability
        (Except.ok (queryBookings store req.room_id (some req.date)))
        req.date req.start_time req.end_time
      if avail.1 = false then (CreateResult.conflict avail.2, store)
      else
        (CreateResult.created (bookingRecord req freshId nowIso),
          store ++ [bookingRecord req freshId nowIso])
  | _, _ => (CreateResult.malformedTimestamp, store)

/-- create_tables.py get_booking_by_id: DynamoDB get_item on the booking_id
key; on a list model, the first record with that id. -/
def get_booking_by_id (store : Store) (booking_id : String) : Option Booking :=
  store.find? (fun b => decide (b.booking_id = booking_id))

/-- create_tables.py update_booking_status: update_item setting only the
status attribute of the record with the given key. -/
def update_booking_status (store : Store) (booking_id status : String) : Store :=
  store.map (fun b =>
    if b.booking_id = booking_id then { b with status := status } else b)

/-- The lead-time quantity of app_enhanced.py modify_booking and
cancel_booking: (booking_start - now).total_seconds() / 60. -/
def minutesUntilStart (startSec nowSec : Int) : ℚ :=
  ((startSec - nowSec : Int) : ℚ) / 60

/-- The distinct responses of PUT /api/bookings/id in app_enhanced.py:
404 when the booking is absent, 500 when fromisoformat raises, 403 when the
lead time is under an hour, otherwise the 200 success response (the handler
performs no update and no availability check: its update section is empty). -/
inductive ModifyResult where
  | notFound
  | internalError
  | tooLateToModify
  | success
  deriving Repr, DecidableEq

/-- The distinct responses of DELETE /api/bookings/id in app_enhanced.py:
404 when the booking is absent, 500 when fromisoformat raises, 403 when the
lead time is under an hour, 200 after the status update. -/
inductive CancelResult where
  | notFound
  | internalError
  | tooLateToCancel
  | cancelledOk
  deriving Repr, DecidableEq

/-- app_enhanced.py modify_booking: look the booking up, parse its stored
start_time, reject under an hour of lead time, then read the request body
and return success. The body newData is read but never used: the code
between get_json and the success response is only comments, so nothing is
validated, no availability check runs and the store is returned unchanged. -/
def modify_booking (parseIso : String → Option Int) (store : Store)
    (booking_id : String) (newData : List (String × String)) (nowSec : Int) :
    ModifyResult × Store :=
  match get_booking_by_id store booking_id with
  | none => (ModifyResult.notFound, store)
  | some b =>
    match parseIso b.start_time with
    | none => (ModifyResult.internalError, store)
    | some sSec =>
      if minutesUntilStart sSec nowSec < 60 then (ModifyResult.tooLateToModify, store)
      else (ModifyResult.success, store)

/-- app_enhanced.py cancel_booking: look the booking up, parse its stored
start_time, reject under an hour of lead time, otherwise flip the status to
cancelled via update_booking_status (the record is not deleted). -/
def cancel_booking (parseIso : String → Option Int) (store : Store)
    (booking_id : String) (nowSec : Int) : CancelResult × Store :=
  match get_booking_by_id store booking_id with
  | none => (CancelResult.notFound, store)
  | some b =>
    match parseIso b.start_time with
    | none => (CancelResult.internalError, store)
    | some sSec =>
      if minutesUntilStart sSec nowSec < 60 then (CancelResult.tooLateToCancel, store)
      else (CancelResult.cancelledOk, update_booking_status store booking_id "cancelled")

/-- A concrete datetime.fromisoformat table for the 2025-06-01 fixtures,
giving epoch seconds relative to 2025-06-01T10:00:00. -/
def parseFixture : String → Option Int := fun s =>
  if s = "2025-06-01T10:00:00" then some 0
  else if s = "2025-06-01T10:30:00" then some 1800
  else if s = "2025-06-01T10:59:00" then some 3540
  else if s = "2025-06-01T11:00:00" then some 3600
  else if s = "2025-06-01T11:01:00" then some 3660
  else if s = "2025-06-01T11:30:00" then some 5400
  else if s = "2025-06-01T12:00:00" then some 7200
  else if s = "2025-06-01T14:00:00" then some 14400
  else none

/-- An active booking of room-1 on 2025-06-01, 10:00 to 11:00. -/
def sampleBooking : Booking :=
  { booking_id := "bk-1"
    room_id := "room-1"
    user_email := "alice@example.com"
    user_id := "u-1"
    date := "2025-06-01"
    start_time := "2025-06-01T10:00:00"
    end_time := "2025-06-01T11:00:00"
    status := "confirmed"
    created_at := "2025-05-01T00:00:00" }

/-- A cancelled booking over the same slot as sampleBooking. -/
def cancelledBooking : Booking :=
  { sampleBooking with booking_id := "bk-2", status := "cancelled" }

/-- The booking being modified in the scenario of claim C2: room-1, 12:00 to
14:00, so its start is two hours after the fixture clock zero. -/
def modifyTarget : Booking :=
  { sampleBooking with
    booking_id := "bk-modify"
    start_time := "2025-06-01T12:00:00"
    end_time := "2025-06-01T14:00:00" }

/-- The third, unrelated active booking of the C2 scenario: room-1, 10:00 to
11:00. -/
def thirdBooking : Booking :=
  { sampleBooking with booking_id := "bk-third", user_email := "carol@example.com" }

/-- The Bookings table of the C2 scenario. -/
def modifyStore : Store := [modifyTarget, thirdBooking]

/-- A create request for room-1, 10:00 to 11:00 on 2025-06-01 (60 minutes). -/
def reqOneHour : BookingRequest :=
  { room_id := "room-1"
    user_email := "bob@example.com"
    user_id := "u-2"
    date := "2025-06-01"
    start_time := "2025-06-01T10:00:00"
    end_time := "2025-06-01T11:00:00" }

/-- A create request for room-1, 10:00 to 10:30 on 2025-06-01 (30 minutes). -/
def reqHalfHour : BookingRequest :=
  { reqOneHour with end_time := "2025-06-01T10:30:00" }

/-- A booking whose start is 61 minutes after the fixture clock zero. -/
def boundaryBooking : Booking :=
  { sampleBooking with
    booking_id := "bk-61"
    start_time := "2025-06-01T11:01:00"
    end_time := "2025-06-01T12:00:00" }

/-- A booking whose start is 240 minutes after the fixture clock zero. -/
def lateBooking : Booking :=
  { sampleBooking with
    booking_id := "bk-late"
    start_time := "2025-06-01T14:00:00"
    end_time := "2025-06-01T14:00:00" }

/-- An already-cancelled booking whose start is 240 minutes after the fixture
clock zero. -/
def cancelledLateBooking : Booking :=
  { lateBooking with booking_id := "bk-idem", status := "cancelled" }

theorem conflictsWith_def (date s e : String) (b : Booking) :
    conflictsWith date s e b
      ↔ b.status ≠ "cancelled" ∧ b.date = date ∧ strLt s b.end_time ∧ strLt b.start_time e :=
  Iff.rfl

theorem availabilityScan_false_iff (date s e : String) (bs : List Booking) :
    availabilityScan date s e bs = (false, "Room is already booked for this time slot")
      ↔ ∃ b ∈ bs, conflictsWith date s e b := by
  induction bs with
  | nil =>
    constructor
    · intro h; exact absurd h (by simp [availabilityScan])
    · rintro ⟨b, hb, -⟩; exact absurd hb (List.not_mem_nil b)
  | cons b rest ih =>
    unfold availabilityScan
    by_cases hc : b.status = "cancelled"
    · rw [if_pos hc, ih]
      constructor
      · rintro ⟨b2, hb2, hcf⟩; exact ⟨b2, List.mem_cons_of_mem b hb2, hcf⟩
      · rintro ⟨b2, hb2, hcf⟩
        rcases List.mem_cons.mp hb2 with h | h
        · exact absurd hc (h ▸ hcf).1
        · exact ⟨b2, h, hcf⟩
    · rw [if_neg hc]
      by_cases hd : b.date = date
      · rw [if_neg (by simpa using hd)]
        by_cases hov : strLt s b.end_time ∧ strLt b.start_time e
        · rw [if_pos hov]
          constructor
          · intro h
            exact ⟨b, List.mem_cons_self b rest, ⟨hc, hd, hov.1, hov.2⟩⟩
          · intro h; rfl
        · rw [if_neg hov, ih]
          constructor
          · rintro ⟨b2, hb2, hcf⟩; exact ⟨b2, List.mem_cons_of_mem b hb2, hcf⟩
          · rintro ⟨b2, hb2, hcf⟩
            rcases List.mem_cons.mp hb2 with h | h
            · exact absurd ⟨(h ▸ hcf).2.2.1, (h ▸ hcf).2.2.2⟩ hov
            · exact ⟨b2, h, hcf⟩
      · rw [if_pos (by simpa using hd), ih]
        constructor
        · rintro ⟨b2, hb2, hcf⟩; exact ⟨b2, List.mem_cons_of_mem b hb2, hcf⟩
        · rintro ⟨b2, hb2, hcf⟩
          rcases List.mem_cons.mp hb2 with h | h
          · exact absurd (h ▸ hcf).2.1 hd
          · exact ⟨b2, h, hcf⟩

theorem availabilityScan_true_iff (date s e : String) (bs : List Booking) :
    availabilityScan date s e bs = (true, "Room is available")
      ↔ ∀ b ∈ bs, ¬ conflictsWith date s e b := by
  induction bs with
  | nil =>
    constructor
    · rintro - b hb; exact absurd hb (List.not_mem_nil b)
    · intro h; rfl
  | cons b rest ih =>
    unfold availabilityScan
    by_cases hc : b.status = "cancelled"
    · rw [if_pos hc, ih]
      constructor
      · intro h b2 hb2
        rcases List.mem_cons.mp hb2 with h2 | h2
        · intro hcf; exact absurd hc (h2 ▸ hcf).1
        · exact h b2 h2
      · intro h b2 hb2; exact h b2 (List.mem_cons_of_mem b hb2)
    · rw [if_neg hc]
      by_cases hd : b.date = date
      · rw [if_neg (by simpa using hd)]
        by_cases hov : strLt s b.end_time ∧ strLt b.start_time e
        · rw [if_pos hov]
          constructor
          · intro h; exact absurd h (by simp)
          · intro h
            exact absurd ⟨hc, hd, hov.1, hov.2⟩ (h b (List.mem_cons_self b rest))
        · rw [if_neg hov, ih]
          constructor
          · intro h b2 hb2
            rcases List.mem_cons.mp hb2 with h2 | h2
            · intro hcf; exact absurd ⟨(h2 ▸ hcf).2.2.1, (h2 ▸ hcf).2.2.2⟩ hov
            · exact h b2 h2
          · intro h b2 hb2; exact h b2 (List.mem_cons_of_mem b hb2)
      · rw [if_pos (by simpa using hd), ih]
        constructor
        · intro h b2 hb2
          rcases List.mem_cons.mp hb2 with h2 | h2
          · intro hcf; exact absurd (h2 ▸ hcf).2.1 hd
          · exact h b2 h2
        · intro h b2 hb2; exact h b2 (List.mem_cons_of_mem b hb2)

theorem check_room_availability_ok (items : List Booking) (date s e : String) :
    check_room_availability (Except.ok items) date s e = availabilityScan date s e items :=
  rfl

theorem mem_queryBookings (store : Store) (room d : String) (b : Booking) :
    b ∈ queryBookings store room (some d)
      ↔ b ∈ store ∧ b.room_id = room ∧ strGe b.start_time d := by
  unfold queryBookings
  rw [List.mem_filter]
  simp only [decide_eq_true_eq]

theorem availabilityScan_cases (date s e : String) (bs : List Booking) :
    availabilityScan date s e bs = (true, "Room is available")
      ∨ availabilityScan date s e bs
          = (false, "Room is already booked for this time slot") := by
  induction bs with
  | nil => left; rfl
  | cons b rest ih =>
    unfold availabilityScan
    split
    · exact ih
    · split
      · exact ih
      · split
        · right; rfl
        · exact ih

/-- Claim C1: for a candidate interval on a date, check_room_availability on
the room's queried bookings reports the conflict pair exactly when some
stored booking of that room that is not cancelled and has the same date
field satisfies candidate.start < booking.end_time and
candidate.end > booking.start_time under lexical string comparison, and
reports the availability pair exactly when no such booking exists (so a
back-to-back candidate with candidate.end = booking.start_time is never a
conflict). The hypothesis states the data-model invariant that a booking
dated on the candidate date carries a start_time at or after that date
string, as ISO date-prefixed timestamps do. -/
theorem check_room_availability_conflict_iff
    (store : Store) (room date s e : String)
    (hwf : ∀ b ∈ store, b.date = date → strGe b.start_time date) :
    (check_room_availability (Except.ok (queryBookings store room (some date))) date s e
        = (false, "Room is already booked for this time slot")
      ↔ ∃ b ∈ store, b.room_id = room ∧ b.status ≠ "cancelled" ∧ b.date = date
          ∧ strLt s b.end_time ∧ strLt b.start_time e)
    ∧ (check_room_availability (Except.ok (queryBookings store room (some date))) date s e
        = (true, "Room is available")
      ↔ ∀ b ∈ store, b.room_id = room → b.status ≠ "cancelled" → b.date = date
          → ¬(strLt s b.end_time ∧ strLt b.start_time e)) := by
  constructor
  · rw [check_room_availability_ok, availabilityScan_false_iff]
    constructor
    · rintro ⟨b, hb, hcf⟩
      obtain ⟨hbs, hroom, -⟩ := (mem_queryBookings store room date b).mp hb
      exact ⟨b, hbs, hroom, hcf.1, hcf.2.1, hcf.2.2.1, hcf.2.2.2⟩
    · rintro ⟨b, hbs, hroom, hst, hd, h1, h2⟩
      exact ⟨b, (mem_queryBookings store room date b).mpr ⟨hbs, hroom, hwf b hbs hd⟩,
        hst, hd, h1, h2⟩
  · rw [check_room_availability_ok, availabilityScan_true_iff]
    constructor
    · intro h b hbs hroom hst hd hov
      exact h b ((mem_queryBookings store room date b).mpr ⟨hbs, hroom, hwf b hbs hd⟩)
        ⟨hst, hd, hov.1, hov.2⟩
    · intro h b hb hcf
      obtain ⟨hbs, hroom, -⟩ := (mem_queryBookings store room date b).mp hb
      exact h b hbs hroom hcf.1 hcf.2.1 ⟨hcf.2.2.1, hcf.2.2.2⟩

theorem check_room_availability_conflict_iff_witness :
    check_room_availability
        (Except.ok (queryBookings [sampleBooking] "room-1" (some "2025-06-01")))
        "2025-06-01" "2025-06-01T10:30:00" "2025-06-01T11:30:00"
      = (false, "Room is already booked for this time slot") :=
  ((check_room_availability_conflict_iff [sampleBooking] "room-1" "2025-06-01"
      "2025-06-01T10:30:00" "2025-06-01T11:30:00" (by decide)).1).mpr (by decide)

/-- Claim C3 (code bug): when the fetch of the room's bookings fails, the
ClientError is swallowed inside get_bookings_by_room, which returns the
empty list, so check_room_availability answers with the success pair
(true, "Room is available") instead of failing closed. -/
theorem check_room_availability_swallows_store_error (msg date s e : String) :
    check_room_availability (Except.error msg) date s e = (true, "Room is available") :=
  rfl

/-- Claim C4: a stored booking with status cancelled never participates in
conflict detection: if every booking of the room that matches the date and
overlaps the candidate interval is cancelled, check_room_availability
returns (true, "Room is available"). -/
theorem check_room_availability_ignores_cancelled
    (store : Store) (room date s e : String)
    (hcanc : ∀ b ∈ store, b.room_id = room → b.date = date →
      strLt s b.end_time → strLt b.start_time e → b.status = "cancelled") :
    check_room_availability (Except.ok (queryBookings store room (some date))) date s e
      = (true, "Room is available") := by
  rw [check_room_availability_ok, availabilityScan_true_iff]
  intro b hb hcf
  obtain ⟨hbs, hroom, -⟩ := (mem_queryBookings store room date b).mp hb
  exact hcf.1 (hcanc b hbs hroom hcf.2.1 hcf.2.2.1 hcf.2.2.2)

theorem check_room_availability_ignores_cancelled_witness :
    check_room_availability
        (Except.ok (queryBookings [cancelledBooking] "room-1" (some "2025-06-01")))
        "2025-06-01" "2025-06-01T10:00:00" "2025-06-01T11:00:00"
      = (true, "Room is available") :=
  check_room_availability_ignores_cancelled [cancelledBooking] "room-1" "2025-06-01"
    "2025-06-01T10:00:00" "2025-06-01T11:00:00" (by decide)

/-- Claim C7: a room identifier for which the store holds no bookings is not
rejected: the query returns nothing and check_room_availability answers
(true, "Room is available") for any date and interval. -/
theorem check_room_availability_unknown_room
    (store : Store) (room date s e : String)
    (h : ∀ b ∈ store, b.room_id ≠ room) :
    check_room_availability (Except.ok (queryBookings store room (some date))) date s e
      = (true, "Room is available") := by
  rw [check_room_availability_ok, availabilityScan_true_iff]
  intro b hb
  obtain ⟨hbs, hroom, -⟩ := (mem_queryBookings store room date b).mp hb
  exact absurd hroom (h b hbs)

theorem check_room_availability_unknown_room_witness :
    check_room_availability
        (Except.ok (queryBookings [sampleBooking] "room-404" (some "2025-06-01")))
        "2025-06-01" "2025-06-01T10:00:00" "2025-06-01T11:00:00"
      = (true, "Room is available") :=
  check_room_availability_unknown_room [sampleBooking] "room-404" "2025-06-01"
    "2025-06-01T10:00:00" "2025-06-01T11:00:00" (by decide)

theorem create_booking_endpoint_parsed
    (parseIso : String → Option Int) (store : Store) (req : BookingRequest)
    (freshId nowIso : String) (sSec eSec : Int)
    (hs : parseIso req.start_time = some sSec)
    (he : parseIso req.end_time = some eSec) :
    create_booking_endpoint parseIso store req freshId nowIso =
      if ((eSec - sSec : Int) : ℚ) / 60 < 30 then (CreateResult.tooShort, store)
      else if ((eSec - sSec : Int) : ℚ) / 60 > 240 then (CreateResult.tooLong, store)
      else if (check_room_availability
          (Except.ok (queryBookings store req.room_id (some req.date)))
          req.date req.start_time req.end_time).1 = false then
        (CreateResult.conflict (check_room_availability
          (Except.ok (queryBookings store req.room_id (some req.date)))
          req.date req.start_time req.end_time).2, store)
      else
        (CreateResult.created (bookingRecord req freshId nowIso),
          store ++ [bookingRecord req freshId nowIso]) := by
  unfold create_booking_endpoint
  rw [hs, he]

/-- Claim C5: with well-formed timestamps, the duration check of
create_booking_endpoint compares duration = end - start in minutes against
30 and 240: a 30-minute or 240-minute request is rejected by neither bound,
a duration of at most 29 minutes (1740 seconds) is rejected as too short,
and a duration of at least 241 minutes (14460 seconds) is rejected as too
long; both rejections leave the store unwritten and do not depend on the
store, the fresh id or the clock, so they happen before any availability
check or write. -/
theorem create_booking_duration_bounds
    (parseIso : String → Option Int) (store : Store) (req : BookingRequest)
    (freshId nowIso : String) (sSec eSec : Int)
    (hs : parseIso req.start_time = some sSec)
    (he : parseIso req.end_time = some eSec) :
    ((create_booking_endpoint parseIso store req freshId nowIso).1 = CreateResult.tooShort
      ↔ ((eSec - sSec : Int) : ℚ) / 60 < 30)
    ∧ ((create_booking_endpoint parseIso store req freshId nowIso).1 = CreateResult.tooLong
      ↔ (¬ ((eSec - sSec : Int) : ℚ) / 60 < 30 ∧ ((eSec - sSec : Int) : ℚ) / 60 > 240))
    ∧ (eSec - sSec = 1800 ∨ eSec - sSec = 14400 →
      (create_booking_endpoint parseIso store req freshId nowIso).1 ≠ CreateResult.tooShort
      ∧ (create_booking_endpoint parseIso store req freshId nowIso).1 ≠ CreateResult.tooLong)
    ∧ (eSec - sSec ≤ 1740 →
      create_booking_endpoint parseIso store req freshId nowIso = (CreateResult.tooShort, store)
      ∧ ∀ store2 freshId2 nowIso2,
        (create_booking_endpoint parseIso store2 req freshId2 nowIso2).1 = CreateResult.tooShort)
    ∧ (14460 ≤ eSec - sSec →
      create_booking_endpoint parseIso store req freshId nowIso = (CreateResult.tooLong, store)
      ∧ ∀ store2 freshId2 nowIso2,
        (create_booking_endpoint parseIso store2 req freshId2 nowIso2).1 = CreateResult.tooLong) := by
  have key : ∀ (st : Store) (fid niso : String),
      create_booking_endpoint parseIso st req fid niso =
        if ((eSec - sSec : Int) : ℚ) / 60 < 30 then (CreateResult.tooShort, st)
        else if ((eSec - sSec : Int) : ℚ) / 60 > 240 then (CreateResult.tooLong, st)
        else if (check_room_availability
            (Except.ok (queryBookings st req.room_id (some req.date)))
            req.date req.start_time req.end_time).1 = false then
          (CreateResult.conflict (check_room_availability
            (Except.ok (queryBookings st req.room_id (some req.date)))
            req.date req.start_time req.end_time).2, st)
        else
          (CreateResult.created (bookingRecord req fid niso),
            st ++ [bookingRecord req fid niso]) := by
    intro st fid niso
    exact create_booking_endpoint_parsed parseIso st req fid niso sSec eSec hs he
  set d : ℚ := ((eSec - sSec : Int) : ℚ) / 60 with hd
  refine ⟨?_, ?_, ?_, ?_, ?_⟩
  · rw [key]
    by_cases h30 : d < 30
    · rw [if_pos h30]
      simp [h30]
    · rw [if_neg h30]
      by_cases h240 : d > 240
      · rw [if_pos h240]
        simp [h30]
      · rw [if_neg h240]
        by_cases hav : (check_room_availability
            (Except.ok (queryBookings store req.room_id (some req.date)))
            req.date req.start_time req.end_time).1 = false
        · rw [if_pos hav]; simp [h30]
        · rw [if_neg hav]; simp [h30]
  · rw [key]
    by_cases h30 : d < 30
    · rw [if_pos h30]
      simp [h30]
    · rw [if_neg h30]
      by_cases h240 : d > 240
      · rw [if_pos h240]
        simp [h30, h240]
      · rw [if_neg h240]
        by_cases hav : (check_room_availability
            (Except.ok (queryBookings store req.room_id (some req.date)))
            req.date req.start_time req.end_time).1 = false
        · rw [if_pos hav]; simp [h30, h240]
        · rw [if_neg hav]; simp [h30, h240]
  · intro hdur
    have h30 : ¬ d < 30 := by
      rw [hd]
      rcases hdur with h | h <;> rw [h] <;> norm_num
    have h240 : ¬ d > 240 := by
      rw [hd]
      rcases hdur with h | h <;> rw [h] <;> norm_num
    rw [key, if_neg h30, if_neg h240]
    by_cases hav : (check_room_availability
        (Except.ok (queryBookings store req.room_id (some req.date)))
        req.date req.start_time req.end_time).1 = false
    · rw [if_pos hav]
      refine ⟨?_, ?_⟩ <;> simp
    · rw [if_neg hav]
      refine ⟨?_, ?_⟩ <;> simp
  · intro hdur
    have h30 : d < 30 := by
      rw [hd, div_lt_iff₀ (by norm_num : (0:ℚ) < 60)]
      have hle : ((eSec - sSec : Int) : ℚ) ≤ 1740 := by exact_mod_cast hdur
      linarith
    exact ⟨by rw [key, if_pos h30], fun store2 freshId2 nowIso2 => by
      rw [key store2 freshId2 nowIso2, if_pos h30]⟩
  · intro hdur
    have hq : (14460 : ℚ) ≤ ((eSec - sSec : Int) : ℚ) := by exact_mod_cast hdur
    have h30 : ¬ d < 30 := by
      rw [hd, not_lt, le_div_iff₀ (by norm_num : (0:ℚ) < 60)]
      linarith
    have h240 : d > 240 := by
      rw [hd, gt_iff_lt, lt_div_iff₀ (by norm_num : (0:ℚ) < 60)]
      linarith
    exact ⟨by rw [key, if_neg h30, if_pos h240], fun store2 freshId2 nowIso2 => by
      rw [key store2 freshId2 nowIso2, if_neg h30, if_pos h240]⟩

theorem create_booking_duration_bounds_witness :
    (create_booking_endpoint parseFixture [] reqHalfHour "bk-new" "2025-05-01T00:00:00").1
        ≠ CreateResult.tooShort
    ∧ (create_booking_endpoint parseFixture [] reqHalfHour "bk-new" "2025-05-01T00:00:00").1
        ≠ CreateResult.tooLong :=
  (create_booking_duration_bounds parseFixture [] reqHalfHour "bk-new" "2025-05-01T00:00:00"
    0 1800 rfl rfl).2.2.1 (Or.inl (by decide))

/-- Claim C8 counterexample: a fully valid createBooking request (room-1,
10:00 to 11:00, empty store) persists a record whose status field is
"confirmed", not "active" as the claim states. -/
theorem create_booking_status_not_active :
    (create_booking_endpoint parseFixture [] reqOneHour "bk-new"
        "2025-05-01T00:00:00").2.map Booking.status = ["confirmed"]
    ∧ "confirmed" ≠ "active" := by
  have h := create_booking_endpoint_parsed parseFixture [] reqOneHour "bk-new"
    "2025-05-01T00:00:00" 0 3600 rfl rfl
  rw [h, if_neg (by norm_num), if_neg (by norm_num), if_neg (by decide)]
  exact ⟨rfl, by decide⟩

/-- Claim C8 (amended): a createBooking request that parses, has duration
within [30, 240] minutes (seconds between 1800 and 14400) and passes the
availability check persists exactly one new record carrying the allocated
fresh identifier, status "confirmed" (the code writes confirmed, not
active), creation timestamp = now, and the request fields; with a fresh
identifier the persisted id is unique in the store, and the created
response carries the same record. -/
theorem create_booking_success_persists
    (parseIso : String → Option Int) (store : Store) (req : BookingRequest)
    (freshId nowIso : String) (sSec eSec : Int)
    (hs : parseIso req.start_time = some sSec)
    (he : parseIso req.end_time = some eSec)
    (hmin : 1800 ≤ eSec - sSec)
    (hmax : eSec - sSec ≤ 14400)
    (hav : (check_room_availability
        (Except.ok (queryBookings store req.room_id (some req.date)))
        req.date req.start_time req.end_time).1 = true)
    (hfresh : freshId ∉ store.map Booking.booking_id) :
    create_booking_endpoint parseIso store req freshId nowIso
      = (CreateResult.created (bookingRecord req freshId nowIso),
        store ++ [bookingRecord req freshId nowIso])
    ∧ (bookingRecord req freshId nowIso).booking_id = freshId
    ∧ (bookingRecord req freshId nowIso).status = "confirmed"
    ∧ (bookingRecord req freshId nowIso).created_at = nowIso
    ∧ (bookingRecord req freshId nowIso).room_id = req.room_id
    ∧ (bookingRecord req freshId nowIso).user_email = req.user_email
    ∧ (bookingRecord req freshId nowIso).date = req.date
    ∧ (bookingRecord req freshId nowIso).start_time = req.start_time
    ∧ (bookingRecord req freshId nowIso).end_time = req.end_time
    ∧ (bookingRecord req freshId nowIso).booking_id ∉ store.map Booking.booking_id := by
  have h30 : ¬ ((eSec - sSec : Int) : ℚ) / 60 < 30 := by
    rw [not_lt, le_div_iff₀ (by norm_num : (0:ℚ) < 60)]
    have hq : (1800 : ℚ) ≤ ((eSec - sSec : Int) : ℚ) := by exact_mod_cast hmin
    linarith
  have h240 : ¬ ((eSec - sSec : Int) : ℚ) / 60 > 240 := by
    rw [not_lt, div_le_iff₀ (by norm_num : (0:ℚ) < 60)]
    have hq : ((eSec - sSec : Int) : ℚ) ≤ 14400 := by exact_mod_cast hmax
    linarith
  refine ⟨?_, rfl, rfl, rfl, rfl, rfl, rfl, rfl, rfl, hfresh⟩
  rw [create_booking_endpoint_parsed parseIso store req freshId nowIso sSec eSec hs he,
    if_neg h30, if_neg h240, if_neg (by simp [hav])]

theorem create_booking_success_persists_witness :
    create_booking_endpoint parseFixture [] reqOneHour "bk-new" "2025-05-01T00:00:00"
      = (CreateResult.created (bookingRecord reqOneHour "bk-new" "2025-05-01T00:00:00"),
        [] ++ [bookingRecord reqOneHour "bk-new" "2025-05-01T00:00:00"]) :=
  (create_booking_success_persists parseFixture [] reqOneHour "bk-new" "2025-05-01T00:00:00"
    0 3600 rfl rfl (by decide) (by decide) (by decide) (by decide)).1

theorem modify_booking_parsed
    (parseIso : String → Option Int) (store : Store) (booking_id : String)
    (newData : List (String × String)) (nowSec : Int) (b : Booking) (sSec : Int)
    (hfind : get_booking_by_id store booking_id = some b)
    (hparse : parseIso b.start_time = some sSec) :
    modify_booking parseIso store booking_id newData nowSec =
      if minutesUntilStart sSec nowSec < 60 then (ModifyResult.tooLateToModify, store)
      else (ModifyResult.success, store) := by
  simp only [modify_booking, hfind, hparse]

theorem cancel_booking_parsed
    (parseIso : String → Option Int) (store : Store) (booking_id : String)
    (nowSec : Int) (b : Booking) (sSec : Int)
    (hfind : get_booking_by_id store booking_id = some b)
    (hparse : parseIso b.start_time = some sSec) :
    cancel_booking parseIso store booking_id nowSec =
      if minutesUntilStart sSec nowSec < 60 then (CancelResult.tooLateToCancel, store)
      else (CancelResult.cancelledOk, update_booking_status store booking_id "cancelled") := by
  simp only [cancel_booking, hfind, hparse]

theorem get_booking_by_id_update (store : Store) (bid st : String) (b : Booking)
    (h : get_booking_by_id store bid = some b) :
    get_booking_by_id (update_booking_status store bid st) bid
      = some { b with status := st } := by
  induction store with
  | nil => simp [get_booking_by_id] at h
  | cons hd tl ih =>
    by_cases hh : hd.booking_id = bid
    · have h1 : get_booking_by_id (hd :: tl) bid = some hd := by
        unfold get_booking_by_id
        rw [List.find?_cons_of_pos _ (by simp [hh])]
      rw [h1] at h
      injection h with hb
      subst hb
      unfold update_booking_status get_booking_by_id
      simp only [List.map_cons]
      rw [if_pos hh]
      rw [List.find?_cons_of_pos _ (by simp [hh])]
    · have h2 : get_booking_by_id tl bid = some b := by
        unfold get_booking_by_id at h ⊢
        rwa [List.find?_cons_of_neg _ (by simp [hh])] at h
      have h3 := ih h2
      unfold update_booking_status get_booking_by_id at h3 ⊢
      simp only [List.map_cons]
      rw [if_neg hh]
      rwa [List.find?_cons_of_neg _ (by simp [hh])]

theorem update_booking_status_idem (store : Store) (bid st : String) :
    update_booking_status (update_booking_status store bid st) bid st
      = update_booking_status store bid st := by
  unfold update_booking_status
  rw [List.map_map]
  apply List.map_congr_left
  intro a ha
  by_cases hh : a.booking_id = bid
  · simp [Function.comp, hh]
  · simp [Function.comp, hh]

theorem mem_update_booking_status_of_ne (store : Store) (bid st : String)
    (b2 : Booking) (hmem : b2 ∈ store) (hne : b2.booking_id ≠ bid) :
    b2 ∈ update_booking_status store bid st := by
  unfold update_booking_status
  rw [List.mem_map]
  exact ⟨b2, hmem, by simp [hne]⟩

/-- Claim C6: both modify_booking and cancel_booking compute
minutesUntilStart = existing start - now (in minutes) from the stored
booking's original start_time and reject exactly when it is below 60,
independently of any proposed new time in the request body; a booking
starting in 61 minutes passes both gates, one starting in 59 minutes is
rejected by both. -/
theorem lead_time_boundary
    (parseIso : String → Option Int) (store : Store) (booking_id : String)
    (newData : List (String × String)) (nowSec : Int) (b : Booking) (sSec : Int)
    (hfind : get_booking_by_id store booking_id = some b)
    (hparse : parseIso b.start_time = some sSec) :
    ((modify_booking parseIso store booking_id newData nowSec).1
        = ModifyResult.tooLateToModify ↔ minutesUntilStart sSec nowSec < 60)
    ∧ ((cancel_booking parseIso store booking_id nowSec).1
        = CancelResult.tooLateToCancel ↔ minutesUntilStart sSec nowSec < 60)
    ∧ (∀ newData2, modify_booking parseIso store booking_id newData nowSec
        = modify_booking parseIso store booking_id newData2 nowSec)
    ∧ (sSec - nowSec = 3660 →
        (modify_booking parseIso store booking_id newData nowSec).1 = ModifyResult.success
        ∧ (cancel_booking parseIso store booking_id nowSec).1 = CancelResult.cancelledOk)
    ∧ (sSec - nowSec = 3540 →
        (modify_booking parseIso store booking_id newData nowSec).1
            = ModifyResult.tooLateToModify
        ∧ (cancel_booking parseIso store booking_id nowSec).1
            = CancelResult.tooLateToCancel) := by
  have hm := modify_booking_parsed parseIso store booking_id newData nowSec b sSec hfind hparse
  have hc := cancel_booking_parsed parseIso store booking_id nowSec b sSec hfind hparse
  refine ⟨?_, ?_, ?_, ?_, ?_⟩
  · rw [hm]
    by_cases hl : minutesUntilStart sSec nowSec < 60
    · rw [if_pos hl]; simp [hl]
    · rw [if_neg hl]; simp [hl]
  · rw [hc]
    by_cases hl : minutesUntilStart sSec nowSec < 60
    · rw [if_pos hl]; simp [hl]
    · rw [if_neg hl]; simp [hl]
  · intro newData2
    rfl
  · intro h61
    have hl : ¬ minutesUntilStart sSec nowSec < 60 := by
      unfold minutesUntilStart
      rw [h61]
      norm_num
    rw [hm, hc, if_neg hl, if_neg hl]
    exact ⟨rfl, rfl⟩
  · intro h59
    have hl : minutesUntilStart sSec nowSec < 60 := by
      unfold minutesUntilStart
      rw [h59]
      norm_num
    rw [hm, hc, if_pos hl, if_pos hl]
    exact ⟨rfl, rfl⟩

theorem lead_time_boundary_witness :
    (modify_booking parseFixture [boundaryBooking] "bk-61" [] 0).1 = ModifyResult.success
    ∧ (cancel_booking parseFixture [boundaryBooking] "bk-61" 0).1
        = CancelResult.cancelledOk :=
  (lead_time_boundary parseFixture [boundaryBooking] "bk-61" [] 0 boundaryBooking 3660
    rfl rfl).2.2.2.1 (by decide)

/-- Claim C2 (code bug): in the scenario of spec scenario E, modifying
bk-modify (which starts 120 minutes after now) to the slot 10:30 to 11:30
that conflicts with the unrelated active booking bk-third is not rejected:
check_room_availability on the new interval reports a conflict, yet
modify_booking returns the success response and leaves the store unchanged,
because the handler performs no availability check and no update. -/
theorem modify_booking_skips_conflict_check :
    (check_room_availability
        (Except.ok (queryBookings modifyStore "room-1" (some "2025-06-01")))
        "2025-06-01" "2025-06-01T10:30:00" "2025-06-01T11:30:00").1 = false
    ∧ modify_booking parseFixture modifyStore "bk-modify"
        [("date", "2025-06-01"), ("start_time", "2025-06-01T10:30:00"),
          ("end_time", "2025-06-01T11:30:00")] 0
      = (ModifyResult.success, modifyStore) := by
  constructor
  · decide
  · have hfind : get_booking_by_id modifyStore "bk-modify" = some modifyTarget := rfl
    have hparse : parseFixture modifyTarget.start_time = some 7200 := rfl
    rw [modify_booking_parsed parseFixture modifyStore "bk-modify"
      [("date", "2025-06-01"), ("start_time", "2025-06-01T10:30:00"),
        ("end_time", "2025-06-01T11:30:00")] 0 modifyTarget 7200 hfind hparse]
    have hl : ¬ minutesUntilStart 7200 0 < 60 := by
      unfold minutesUntilStart
      norm_num
    rw [if_neg hl]

/-- Claim C9: a successful cancel_booking call flips only the status field:
the store after the call is update_booking_status store id cancelled, the
record is still retrievable by get_booking_by_id and equals the original
record with status replaced by cancelled (all other fields untouched), the
store keeps its length (nothing is deleted), and records with other ids are
still present unchanged. -/
theorem cancel_booking_status_flip
    (parseIso : String → Option Int) (store : Store) (booking_id : String)
    (nowSec : Int) (b : Booking) (sSec : Int)
    (hfind : get_booking_by_id store booking_id = some b)
    (hparse : parseIso b.start_time = some sSec)
    (hlead : 3600 ≤ sSec - nowSec) :
    cancel_booking parseIso store booking_id nowSec
        = (CancelResult.cancelledOk, update_booking_status store booking_id "cancelled")
    ∧ get_booking_by_id (update_booking_status store booking_id "cancelled") booking_id
        = some { b with status := "cancelled" }
    ∧ (update_booking_status store booking_id "cancelled").length = store.length
    ∧ ∀ b2 ∈ store, b2.booking_id ≠ booking_id →
        b2 ∈ update_booking_status store booking_id "cancelled" := by
  have hq : ¬ minutesUntilStart sSec nowSec < 60 := by
    unfold minutesUntilStart
    rw [not_lt, le_div_iff₀ (by norm_num : (0:ℚ) < 60)]
    have h1 : (3600 : ℚ) ≤ ((sSec - nowSec : Int) : ℚ) := by exact_mod_cast hlead
    linarith
  refine ⟨?_, get_booking_by_id_update store booking_id "cancelled" b hfind,
    by simp [update_booking_status], ?_⟩
  · rw [cancel_booking_parsed parseIso store booking_id nowSec b sSec hfind hparse,
      if_neg hq]
  · intro b2 hmem hne
    exact mem_update_booking_status_of_ne store booking_id "cancelled" b2 hmem hne

theorem cancel_booking_status_flip_witness :
    cancel_booking parseFixture [lateBooking] "bk-late" 0
      = (CancelResult.cancelledOk,
        update_booking_status [lateBooking] "bk-late" "cancelled") :=
  (cancel_booking_status_flip parseFixture [lateBooking] "bk-late" 0 lateBooking 14400
    rfl rfl (by decide)).1

/-- Claim C10: cancel_booking has no precondition on the record's current
status: whenever the booking is found, its start parses and lies at least
an hour ahead, the call returns the success response even if the record is
already cancelled, and applying cancel twice gives exactly the state of
applying it once (idempotence on the store). -/
theorem cancel_booking_idempotent
    (parseIso : String → Option Int) (store : Store) (booking_id : String)
    (nowSec : Int) (b : Booking) (sSec : Int)
    (hfind : get_booking_by_id store booking_id = some b)
    (hparse : parseIso b.start_time = some sSec)
    (hlead : 3600 ≤ sSec - nowSec) :
    (cancel_booking parseIso store booking_id nowSec).1 = CancelResult.cancelledOk
    ∧ cancel_booking parseIso (cancel_booking parseIso store booking_id nowSec).2
        booking_id nowSec
      = cancel_booking parseIso store booking_id nowSec := by
  have hq : ¬ minutesUntilStart sSec nowSec < 60 := by
    unfold minutesUntilStart
    rw [not_lt, le_div_iff₀ (by norm_num : (0:ℚ) < 60)]
    have h1 : (3600 : ℚ) ≤ ((sSec - nowSec : Int) : ℚ) := by exact_mod_cast hlead
    linarith
  have h1 : cancel_booking parseIso store booking_id nowSec
      = (CancelResult.cancelledOk, update_booking_status store booking_id "cancelled") := by
    rw [cancel_booking_parsed parseIso store booking_id nowSec b sSec hfind hparse,
      if_neg hq]
  have hfind2 : get_booking_by_id (update_booking_status store booking_id "cancelled")
      booking_id = some { b with status := "cancelled" } :=
    get_booking_by_id_update store booking_id "cancelled" b hfind
  have hparse2 : parseIso ({ b with status := "cancelled" } : Booking).start_time
      = some sSec := hparse
  have h2 : cancel_booking parseIso (update_booking_status store booking_id "cancelled")
      booking_id nowSec
      = (CancelResult.cancelledOk,
        update_booking_status (update_booking_status store booking_id "cancelled")
          booking_id "cancelled") := by
    rw [cancel_booking_parsed parseIso (update_booking_status store booking_id "cancelled")
      booking_id nowSec { b with status := "cancelled" } sSec hfind2 hparse2, if_neg hq]
  constructor
  · rw [h1]
  · have hstep : cancel_booking parseIso
        (cancel_booking parseIso store booking_id nowSec).2 booking_id nowSec
        = cancel_booking parseIso (update_booking_status store booking_id "cancelled")
          booking_id nowSec := by
      rw [h1]
    rw [hstep, h2, update_booking_status_idem, h1]

theorem cancel_booking_idempotent_witness :
    (cancel_booking parseFixture [cancelledLateBooking] "bk-idem" 0).1
        = CancelResult.cancelledOk
    ∧ cancel_booking parseFixture
        (cancel_booking parseFixture [cancelledLateBooking] "bk-idem" 0).2 "bk-idem" 0
      = cancel_booking parseFixture [cancelledLateBooking] "bk-idem" 0 :=
  cancel_booking_idempotent parseFixture [cancelledLateBooking] "bk-idem" 0
    cancelledLateBooking 14400 rfl rfl (by decide)

end RoomBooking
